import Mathlib

/-
  Verification of the spatial-converter planning core (services/spatial-converter/converter.py).

  The embedding models bounds as extended values (finite rational, plus or minus
  infinity, NaN) so that the validity checks of `_detect_coordinate_system` and
  `_convert_e57_to_ply` can be stated faithfully; thresholds are embedded as exact
  rationals.
-/

namespace SpatialLog

/-- Executable absolute value on the rationals (Python abs). -/
def qabs (q : ℚ) : ℚ := if q < 0 then -q else q

/-- Extended value: a finite rational, an infinity, or NaN (models a Python float
bound as read from pdal info). -/
inductive EF where
  | fin (q : ℚ)
  | pinf
  | ninf
  | nan
deriving DecidableEq

namespace EF

/-- math.isinf -/
def isinf : EF → Bool
  | pinf => true
  | ninf => true
  | _ => false

/-- math.isnan -/
def isnan : EF → Bool
  | nan => true
  | _ => false

/-- IEEE-style subtraction on extended values. -/
def sub : EF → EF → EF
  | nan, _ => nan
  | _, nan => nan
  | fin a, fin b => fin (a - b)
  | fin _, pinf => ninf
  | fin _, ninf => pinf
  | pinf, fin _ => pinf
  | ninf, fin _ => ninf
  | pinf, pinf => nan
  | pinf, ninf => pinf
  | ninf, pinf => ninf
  | ninf, ninf => nan

/-- abs on extended values. -/
def abs : EF → EF
  | fin q => fin (qabs q)
  | pinf => pinf
  | ninf => pinf
  | nan => nan

/-- IEEE-style comparison: any comparison with NaN is false. -/
def leB : EF → EF → Bool
  | nan, _ => false
  | _, nan => false
  | fin a, fin b => decide (a ≤ b)
  | fin _, pinf => true
  | fin _, ninf => false
  | pinf, fin _ => false
  | ninf, fin _ => true
  | pinf, pinf => true
  | pinf, ninf => false
  | ninf, pinf => true
  | ninf, ninf => true

/-- IEEE-style strict comparison: any comparison with NaN is false. -/
def ltB : EF → EF → Bool
  | nan, _ => false
  | _, nan => false
  | fin a, fin b => decide (a < b)
  | fin _, pinf => true
  | fin _, ninf => false
  | pinf, fin _ => false
  | ninf, fin _ => true
  | pinf, pinf => false
  | pinf, ninf => false
  | ninf, pinf => true
  | ninf, ninf => false

/-- Underlying rational of a finite extended value (0 for the non-finite ones;
only ever used on bounds that passed the validity checks). -/
def toRat : EF → ℚ
  | fin q => q
  | _ => 0

end EF

/-- A bounding box of extended values, in the tuple order used by the source:
(minx, miny, minz, maxx, maxy, maxz). -/
structure EFBox where
  minx : EF
  miny : EF
  minz : EF
  maxx : EF
  maxy : EF
  maxz : EF
deriving DecidableEq

/-- x_range = abs(maxx - minx) -/
def xRange (b : EFBox) : EF := (b.maxx.sub b.minx).abs

/-- y_range = abs(maxy - miny) -/
def yRange (b : EFBox) : EF := (b.maxy.sub b.miny).abs

/-- z_range = abs(maxz - minz) -/
def zRange (b : EFBox) : EF := (b.maxz.sub b.minz).abs

/-- bounds_valid of `_detect_coordinate_system`: X and Y ranges above the minimal
epsilon 1e-4, and no infinite value among the Z range and the six bounds. -/
def boundsValid (b : EFBox) : Bool :=
  EF.ltB (EF.fin (1/10000)) (xRange b) && EF.ltB (EF.fin (1/10000)) (yRange b) &&
  !(zRange b).isinf &&
  !b.minx.isinf && !b.maxx.isinf &&
  !b.miny.isinf && !b.maxy.isinf &&
  !b.minz.isinf && !b.maxz.isinf

/-- Pattern 1 of `_detect_coordinate_system`: X/Y ranges below 1 degree and Z in
the latitude band 20..70 (swapped-axis geographic). All four flags are false
when bounds_valid is false. -/
def isSwappedGeo (b : EFBox) : Bool :=
  boundsValid b &&
  EF.ltB (xRange b) (EF.fin 1) && EF.ltB (yRange b) (EF.fin 1) &&
  EF.leB (EF.fin 20) b.minz && EF.leB b.minz (EF.fin 70) &&
  EF.leB (EF.fin 20) b.maxz && EF.leB b.maxz (EF.fin 70)

/-- Pattern 2: standard geographic coordinates. -/
def isStandardGeo (b : EFBox) : Bool :=
  boundsValid b &&
  EF.leB (EF.fin (-180)) b.minx && EF.leB b.minx (EF.fin 180) &&
  EF.leB (EF.fin (-180)) b.maxx && EF.leB b.maxx (EF.fin 180) &&
  EF.leB (EF.fin (-90)) b.miny && EF.leB b.miny (EF.fin 90) &&
  EF.leB (EF.fin (-90)) b.maxy && EF.leB b.maxy (EF.fin 90) &&
  EF.ltB (xRange b) (EF.fin 10) && EF.ltB (yRange b) (EF.fin 10)

/-- Pattern 3: Korea TM grid. -/
def isKoreaTM (b : EFBox) : Bool :=
  boundsValid b &&
  EF.leB (EF.fin 100000) b.minx && EF.leB b.minx (EF.fin 700000) &&
  EF.leB (EF.fin 100000) b.maxx && EF.leB b.maxx (EF.fin 700000) &&
  EF.leB (EF.fin 100000) b.miny && EF.leB b.miny (EF.fin 700000) &&
  EF.leB (EF.fin 100000) b.maxy && EF.leB b.maxy (EF.fin 700000) &&
  EF.ltB (zRange b) (EF.fin 1000)

/-- Pattern 4: generic projected (UTM-like) grid. Note: the source has no
"not is_korea_tm" conjunct here. -/
def isProjected (b : EFBox) : Bool :=
  boundsValid b &&
  EF.leB (EF.fin 10000) b.minx.abs && EF.leB b.minx.abs (EF.fin 10000000) &&
  EF.leB (EF.fin 10000) b.miny.abs && EF.leB b.miny.abs (EF.fin 10000000) &&
  EF.ltB (zRange b) (EF.fin 5000)

/-- is_geographic = is_swapped_geo or is_standard_geo -/
def isGeographic (b : EFBox) : Bool := isSwappedGeo b || isStandardGeo b

/-- The dict returned by `_detect_coordinate_system` on pdal success. -/
structure CoordInfo where
  is_geographic : Bool
  is_swapped : Bool
  is_korea_tm : Bool
  is_projected : Bool
  point_count : ℕ
  bbox : Option EFBox
deriving DecidableEq

/-- `_detect_coordinate_system` on a successful pdal summary with the given
bounds and point count. -/
def detectCoordinateSystem (b : EFBox) (pc : ℕ) : CoordInfo :=
  { is_geographic := isGeographic b
    is_swapped := isSwappedGeo b
    is_korea_tm := isKoreaTM b
    is_projected := isProjected b
    point_count := pc
    bbox := some b }

/-- The failure dict of `_detect_coordinate_system` (pdal error or exception). -/
def detectFailure : CoordInfo :=
  { is_geographic := false, is_swapped := false, is_korea_tm := false
    is_projected := false, point_count := 0, bbox := none }

/-- has_valid_bounds of `_convert_e57_to_ply`: every bound finite and not NaN
(false when the detector produced no bbox). -/
def hasValidBounds : Option EFBox → Bool
  | none => false
  | some b =>
      !b.minx.isinf && !b.minx.isnan && !b.miny.isinf && !b.miny.isnan &&
      !b.minz.isinf && !b.minz.isnan && !b.maxx.isinf && !b.maxx.isnan &&
      !b.maxy.isinf && !b.maxy.isnan && !b.maxz.isinf && !b.maxz.isnan

/-- A bounding box of plain rationals (a bbox whose bounds passed the validity
checks). -/
structure QBox where
  minx : ℚ
  miny : ℚ
  minz : ℚ
  maxx : ℚ
  maxy : ℚ
  maxz : ℚ
deriving DecidableEq

/-- Read the rationals out of a (valid) extended bbox. -/
def toQBox (b : EFBox) : QBox :=
  ⟨b.minx.toRat, b.miny.toRat, b.minz.toRat, b.maxx.toRat, b.maxy.toRat, b.maxz.toRat⟩

/-- Normalization center, x: cx = (minx + maxx) / 2. -/
def normCx (b : QBox) : ℚ := (b.minx + b.maxx) / 2

/-- Normalization center, y. -/
def normCy (b : QBox) : ℚ := (b.miny + b.maxy) / 2

/-- Normalization center, z. -/
def normCz (b : QBox) : ℚ := (b.minz + b.maxz) / 2

/-- x_range = max(abs(maxx - minx), 1e-10) of the normalization block. -/
def normXRange (b : QBox) : ℚ := max (qabs (b.maxx - b.minx)) (1 / 10000000000)

/-- y_range of the normalization block. -/
def normYRange (b : QBox) : ℚ := max (qabs (b.maxy - b.miny)) (1 / 10000000000)

/-- z_range of the normalization block. -/
def normZRange (b : QBox) : ℚ := max (qabs (b.maxz - b.minz)) (1 / 10000000000)

/-- scale_x = 100.0 / x_range -/
def normScaleX (b : QBox) : ℚ := 100 / normXRange b

/-- scale_y = 100.0 / y_range -/
def normScaleY (b : QBox) : ℚ := 100 / normYRange b

/-- scale_z = 100.0 / z_range -/
def normScaleZ (b : QBox) : ℚ := 100 / normZRange b

/-- The 16-entry row-major normalization matrix written into
filters.transformation by `_convert_e57_to_ply`. -/
def normMatrix (b : QBox) : List ℚ :=
  [normScaleX b, 0, 0, -(normCx b) * normScaleX b,
   0, normScaleY b, 0, -(normCy b) * normScaleY b,
   0, 0, normScaleZ b, -(normCz b) * normScaleZ b,
   0, 0, 0, 1]

/-- The fixed Z-up to Y-up matrix "1 0 0 0  0 0 1 0  0 -1 0 0  0 0 0 1". -/
def upAxisMatrix : List ℚ :=
  [1, 0, 0, 0,
   0, 0, 1, 0,
   0, -1, 0, 0,
   0, 0, 0, 1]

/-- A pdal pipeline stage as assembled by `_convert_e57_to_ply`. -/
inductive Stage where
  | reader (format : String)
  | decimation (step : ℕ)
  | voxelDownsize (cell : ℚ)
  | transformation (matrix : List ℚ)
  | assign (values : List String)
  | writer (format : String) (dims : String)
deriving DecidableEq

/-- Voxel size selection of `_convert_e57_to_ply` (geographic default 1e-5,
projected and fallback default 0.05, overridable by the voxel_size option). -/
def e57VoxelSize (geo koreaOrProj : Bool) (voxelOpt : Option ℚ) : ℚ :=
  if geo then voxelOpt.getD (1/100000)
  else if koreaOrProj then voxelOpt.getD (1/20)
  else voxelOpt.getD (1/20)

/-- The sampling section of the e57 pipeline (decimation / voxeldownsize
branches, in source order). -/
def samplingStages (geo koreaOrProj : Bool) (pc : ℕ) (voxel : ℚ) : List Stage :=
  if geo && decide (500000 < pc) then [Stage.decimation (max 1 (pc / 500000))]
  else if geo then []
  else if koreaOrProj then [Stage.voxelDownsize voxel]
  else if decide (500000 < pc) then [Stage.decimation (max 1 (pc / 500000))]
  else [Stage.voxelDownsize voxel]

/-- normalization_applied of `_convert_e57_to_ply`. -/
def normalizationApplied (ci : CoordInfo) : Bool :=
  (ci.is_geographic || ci.is_korea_tm || ci.is_projected) && hasValidBounds ci.bbox

/-- The normalization section of the e57 pipeline: present exactly when
normalization is needed and the bounds are valid. -/
def normalizationStages (ci : CoordInfo) : List Stage :=
  match ci.bbox with
  | some b =>
      if (ci.is_geographic || ci.is_korea_tm || ci.is_projected) && hasValidBounds (some b) then
        [Stage.transformation (normMatrix (toQBox b))]
      else []
  | none => []

/-- filters.assign values for 16-bit to 8-bit color scaling. -/
def colorScale16Values : List String :=
  ["Red = Red / 256", "Green = Green / 256", "Blue = Blue / 256"]

/-- filters.assign values for the height-ramp synthetic color. -/
def heightRampValues : List String :=
  ["Red = (Z + 50) * 2 + 55", "Green = 180", "Blue = (50 - Z) * 2 + 55"]

/-- filters.assign values for the flat fallback color. -/
def flatColorValues : List String :=
  ["Red = 150", "Green = 180", "Blue = 210"]

/-- The color section of the e57 pipeline (source branch order: 16-bit scaling,
8-bit pass-through, height ramp, flat fallback). -/
def colorStages (hasColor is16 normApplied : Bool) : List Stage :=
  if hasColor then
    (if is16 then [Stage.assign colorScale16Values] else [])
  else if normApplied then [Stage.assign heightRampValues]
  else [Stage.assign flatColorValues]

/-- output_has_color: set to true in every branch of the color section. -/
def outputHasColor (hasColor normApplied : Bool) : Bool :=
  if hasColor then true
  else if normApplied then true
  else true

/-- The writers.ply stage with its output dimension list. -/
def writerStage (hasColor normApplied : Bool) : Stage :=
  Stage.writer "writers.ply"
    (if outputHasColor hasColor normApplied then "X,Y,Z,Red,Green,Blue" else "X,Y,Z")

/-- The full pipeline assembled by `_convert_e57_to_ply` from the detector
result, the color info and the options (voxel_size and transform_coords). -/
def planE57 (ci : CoordInfo) (hasColor is16 : Bool)
    (voxelOpt : Option ℚ) (tcOpt : Option Bool) : List Stage :=
  Stage.reader "readers.e57" ::
    (samplingStages ci.is_geographic (ci.is_korea_tm || ci.is_projected) ci.point_count
        (e57VoxelSize ci.is_geographic (ci.is_korea_tm || ci.is_projected) voxelOpt) ++
      (normalizationStages ci ++
        ((if tcOpt.getD (ci.is_korea_tm || ci.is_projected) then
            [Stage.transformation upAxisMatrix] else []) ++
          (colorStages hasColor is16 (normalizationApplied ci) ++
            [writerStage hasColor (normalizationApplied ci)]))))

/-- Sampling stages are the decimation and voxel-downsize filters. -/
def isSamplingStage : Stage → Bool
  | Stage.decimation _ => true
  | Stage.voxelDownsize _ => true
  | _ => false

/-- Assign stages are the color-modifying filters. -/
def isAssignStage : Stage → Bool
  | Stage.assign _ => true
  | _ => false

/-! ### The OBJ (mesh) classifier of `_extract_obj_spatial_info` -/

/-- Pattern 1 of `_extract_obj_spatial_info`: WGS84 geographic range. The mesh
extractor works on parsed finite vertex coordinates, hence plain rationals; its
ranges are maxv - minv without abs. -/
def objIsGeographic (b : QBox) : Bool :=
  decide (-180 ≤ b.minx) && decide (b.minx ≤ 180) &&
  decide (-180 ≤ b.maxx) && decide (b.maxx ≤ 180) &&
  decide (-90 ≤ b.miny) && decide (b.miny ≤ 90) &&
  decide (-90 ≤ b.maxy) && decide (b.maxy ≤ 90) &&
  decide (b.maxx - b.minx < 10) && decide (b.maxy - b.miny < 10)

/-- Pattern 2 of `_extract_obj_spatial_info`: Korea TM range. -/
def objIsKoreaTM (b : QBox) : Bool :=
  decide (100000 ≤ b.minx) && decide (b.minx ≤ 700000) &&
  decide (100000 ≤ b.maxx) && decide (b.maxx ≤ 700000) &&
  decide (100000 ≤ b.miny) && decide (b.miny ≤ 700000) &&
  decide (100000 ≤ b.maxy) && decide (b.maxy ≤ 700000) &&
  decide (b.maxz - b.minz < 1000)

/-- Pattern 3 of `_extract_obj_spatial_info`: projected range, explicitly
excluding boxes already matching Korea TM. -/
def objIsProjected (b : QBox) : Bool :=
  (decide (10000 ≤ qabs b.minx) && decide (qabs b.minx ≤ 10000000) &&
   decide (10000 ≤ qabs b.miny) && decide (qabs b.miny ≤ 10000000) &&
   decide (b.maxz - b.minz < 5000)) && !objIsKoreaTM b

/-! ### Mesh fallback chain and progress reporting of `_convert_obj_to_3dtiles` -/

/-- Outcome of invoking an external mesh engine. -/
inductive EngineOutcome where
  | ok
  | notFound
  | failed
deriving DecidableEq

/-- An engine attempt counts as a success only when it produced the artifact. -/
def engineOk : EngineOutcome → Bool
  | EngineOutcome.ok => true
  | _ => false

/-- The `converted` flag after the obj2gltf attempt and the conditional
gltfpack attempt: gltfpack runs only when obj2gltf did not convert. -/
def objChainConverted (o1 o2 : EngineOutcome) : Bool :=
  engineOk o1 || (!engineOk o1 && engineOk o2)

/-- Observable actions of the OBJ to 3D Tiles fallback chain. -/
inductive MeshAction where
  | tryObj2gltf
  | tryGltfpack
  | emitGlbTileset
  | emitRawObjTileset
deriving DecidableEq

/-- Action sequence of `_convert_obj_to_3dtiles`: always try obj2gltf; try
gltfpack only if not yet converted; emit the GLB tileset on success, the raw
OBJ passthrough tileset otherwise. -/
def objTo3dtilesActions (o1 o2 : EngineOutcome) : List MeshAction :=
  MeshAction.tryObj2gltf ::
    ((if engineOk o1 then [] else [MeshAction.tryGltfpack]) ++
      (if objChainConverted o1 o2 then [MeshAction.emitGlbTileset]
       else [MeshAction.emitRawObjTileset]))

/-- Progress values emitted by `_convert_obj_to_3dtiles` itself (5, 10, 15, 50,
60, 70) followed by those of `_create_glb_tileset` (80, 95) on success or of
`_create_obj_tileset` (40, 70, 90) on the raw fallback path. -/
def objTo3dtilesProgress (o1 o2 : EngineOutcome) : List ℕ :=
  [5, 10, 15, 50, 60, 70] ++
    (if objChainConverted o1 o2 then [80, 95] else [40, 70, 90])

/-- Full progress trace of an OBJ mesh conversion: `_convert_to_3dtiles` emits
20 before dispatching to `_convert_obj_to_3dtiles`. -/
def convertMeshObjProgress (o1 o2 : EngineOutcome) : List ℕ :=
  20 :: objTo3dtilesProgress o1 o2

/-- A progress trace is monotone when every value is at most the next one. -/
def progressMonotone : List ℕ → Bool
  | [] => true
  | [_] => true
  | a :: b :: rest => decide (a ≤ b) && progressMonotone (b :: rest)

/-! ### ECEF placement of `_create_glb_tileset` -/

/-- WGS84 equatorial radius used by `_create_glb_tileset`. -/
noncomputable def wgs84A : ℝ := 6378137

/-- WGS84 flattening f = 1 / 298.257223563. -/
noncomputable def wgs84F : ℝ := 1 / 298.257223563

/-- WGS84 squared eccentricity e2 = 2 * f - f * f. -/
noncomputable def wgs84E2 : ℝ := 2 * wgs84F - wgs84F * wgs84F

/-- Radius of curvature N = a / sqrt(1 - e2 * sin(lat)^2) at a latitude given
in radians. -/
noncomputable def primeVerticalRadius (latRad : ℝ) : ℝ :=
  wgs84A / Real.sqrt (1 - wgs84E2 * Real.sin latRad * Real.sin latRad)

/-- ECEF translation computed by `_create_glb_tileset` from the center
longitude, latitude (degrees) and altitude (meters). -/
noncomputable def ecefTranslation (lon lat alt : ℝ) : ℝ × ℝ × ℝ :=
  ((primeVerticalRadius (lat * (Real.pi / 180)) + alt) *
      Real.cos (lat * (Real.pi / 180)) * Real.cos (lon * (Real.pi / 180)),
   (primeVerticalRadius (lat * (Real.pi / 180)) + alt) *
      Real.cos (lat * (Real.pi / 180)) * Real.sin (lon * (Real.pi / 180)),
   (primeVerticalRadius (lat * (Real.pi / 180)) * (1 - wgs84E2) + alt) *
      Real.sin (lat * (Real.pi / 180)))

/-- The 16-entry column-major root transform of `_create_glb_tileset`:
columns east, up, -north, ecef translation (with homogeneous last entries). -/
noncomputable def rootTransform (lon lat alt : ℝ) : List ℝ :=
  let sinLat := Real.sin (lat * (Real.pi / 180))
  let cosLat := Real.cos (lat * (Real.pi / 180))
  let sinLon := Real.sin (lon * (Real.pi / 180))
  let cosLon := Real.cos (lon * (Real.pi / 180))
  [-sinLon, cosLon, 0, 0,
   cosLat * cosLon, cosLat * sinLon, sinLat, 0,
   -(-sinLat * cosLon), -(-sinLat * sinLon), -cosLat, 0,
   (ecefTranslation lon lat alt).1, (ecefTranslation lon lat alt).2.1,
   (ecefTranslation lon lat alt).2.2, 1]

/-! ### Auxiliary definitions for stating the claims -/

/-- Some bound of the bbox is infinite. -/
def anyInfBound (b : EFBox) : Bool :=
  b.minx.isinf || b.maxx.isinf || b.miny.isinf || b.maxy.isinf ||
  b.minz.isinf || b.maxz.isinf

/-- Apply a row-major 4x4 matrix (as a 16-entry list) to a point with
homogeneous coordinate 1. -/
def apply4RowMajor (m : List ℚ) (x y z : ℚ) : ℚ × ℚ × ℚ :=
  match m with
  | [m0, m1, m2, m3, m4, m5, m6, m7, m8, m9, m10, m11, _, _, _, _] =>
      (m0 * x + m1 * y + m2 * z + m3,
       m4 * x + m5 * y + m6 * z + m7,
       m8 * x + m9 * y + m10 * z + m11)
  | _ => (0, 0, 0)

/-- X coordinate of a bbox corner (false selects the min bound). -/
def cornerX (b : QBox) (s : Bool) : ℚ := if s then b.maxx else b.minx

/-- Y coordinate of a bbox corner. -/
def cornerY (b : QBox) (s : Bool) : ℚ := if s then b.maxy else b.miny

/-- Z coordinate of a bbox corner. -/
def cornerZ (b : QBox) (s : Bool) : ℚ := if s then b.maxz else b.minz

/-- The fixed viewer envelope: every axis within [-50, 50]. -/
def inViewCube (p : ℚ × ℚ × ℚ) : Prop :=
  -50 ≤ p.1 ∧ p.1 ≤ 50 ∧ -50 ≤ p.2.1 ∧ p.2.1 ≤ 50 ∧ -50 ≤ p.2.2 ∧ p.2.2 ≤ 50

/-- A Korea-TM bbox (the bbox of the testable properties section, X in
[150000, 160000], Y in [200000, 210000], Z in [0, 50]). -/
def koreaBoxEF : EFBox :=
  ⟨EF.fin 150000, EF.fin 200000, EF.fin 0, EF.fin 160000, EF.fin 210000, EF.fin 50⟩

/-- A bbox that satisfies the swapped-geographic pattern and the Korea-TM
pattern at the same time (X/Y ranges of 0.5 at offset 100000, Z in [30, 40]). -/
def overlapBoxEF : EFBox :=
  ⟨EF.fin 100000, EF.fin 100000, EF.fin 30, EF.fin (200001/2), EF.fin (200001/2), EF.fin 40⟩

/-- A standard-geographic bbox with a degenerate Z range (minz = maxz = 5). -/
def flatZBoxEF : EFBox :=
  ⟨EF.fin 0, EF.fin 0, EF.fin 5, EF.fin 5, EF.fin 5, EF.fin 5⟩

/-- A plain standard-geographic bbox. -/
def geoBoxEF : EFBox :=
  ⟨EF.fin 0, EF.fin 0, EF.fin 0, EF.fin 5, EF.fin 5, EF.fin 10⟩

/-- A bbox with a degenerate X range (minx = maxx = 0). -/
def degenerateXBoxEF : EFBox :=
  ⟨EF.fin 0, EF.fin 0, EF.fin 0, EF.fin 0, EF.fin 5, EF.fin 5⟩

/-! ### Helper lemmas -/

theorem qabs_eq_abs (q : ℚ) : qabs q = |q| := by
  rw [qabs]
  split_ifs with h
  · exact (abs_of_neg h).symm
  · exact (abs_of_nonneg (le_of_not_lt h)).symm

theorem EF.ltB_isnan_left {a b : EF} (h : EF.ltB a b = true) : a.isnan = false := by
  cases a <;> cases b <;> simp_all [EF.ltB, EF.isnan]

theorem EF.ltB_isnan_right {a b : EF} (h : EF.ltB a b = true) : b.isnan = false := by
  cases a <;> cases b <;> simp_all [EF.ltB, EF.isnan]

theorem bound_nan_of_range {x y : EF} (hx : x.isinf = false) (hy : y.isinf = false)
    (h : ((y.sub x).abs).isnan = false) : x.isnan = false ∧ y.isnan = false := by
  cases x <;> cases y <;> simp_all [EF.sub, EF.abs, EF.isnan, EF.isinf]

/-- A bbox whose Korea-TM or Projected flag is set passes the NaN and infinity
check of `_convert_e57_to_ply` (both flags compare the Z range, which rules out
NaN bounds there; bounds_valid rules the rest out). -/
theorem valid_of_koreaOrProj (b : EFBox) (h : (isKoreaTM b || isProjected b) = true) :
    hasValidBounds (some b) = true := by
  rw [Bool.or_eq_true] at h
  have hzb : EF.ltB (zRange b) (EF.fin 1000) = true ∨
      EF.ltB (zRange b) (EF.fin 5000) = true := by
    rcases h with hk | hp
    · simp only [isKoreaTM, Bool.and_eq_true] at hk
      exact Or.inl hk.2
    · simp only [isProjected, Bool.and_eq_true] at hp
      exact Or.inr hp.2
  have hbv : boundsValid b = true := by
    rcases h with hk | hp
    · simp only [isKoreaTM, Bool.and_eq_true] at hk
      exact hk.1.1.1.1.1.1.1.1.1
    · simp only [isProjected, Bool.and_eq_true] at hp
      exact hp.1.1.1.1.1
  simp only [boundsValid, Bool.and_eq_true, Bool.not_eq_true'] at hbv
  obtain ⟨⟨⟨⟨⟨⟨⟨⟨hx, hy⟩, hzi⟩, h1⟩, h2⟩, h3⟩, h4⟩, h5⟩, h6⟩ := hbv
  have hzn : (zRange b).isnan = false := by
    rcases hzb with hz | hz
    · exact EF.ltB_isnan_left hz
    · exact EF.ltB_isnan_left hz
  have hxm := bound_nan_of_range h1 h2 (EF.ltB_isnan_right hx)
  have hym := bound_nan_of_range h3 h4 (EF.ltB_isnan_right hy)
  have hzm := bound_nan_of_range h5 h6 hzn
  simp only [hasValidBounds, Bool.and_eq_true, Bool.not_eq_true']
  exact ⟨⟨⟨⟨⟨⟨⟨⟨⟨⟨⟨h1, hxm.1⟩, h3⟩, hym.1⟩, h5⟩, hzm.1⟩, h2⟩, hxm.2⟩, h4⟩, hym.2⟩, h6⟩, hzm.2⟩

theorem normYRange_pos (b : QBox) : 0 < normYRange b :=
  lt_of_lt_of_le (by norm_num) (le_max_right _ _)

theorem normScaleY_pos (b : QBox) : 0 < normScaleY b :=
  div_pos (by norm_num) (normYRange_pos b)

/-- The normalization affine can never coincide with the fixed up-axis matrix
(its Y scale entry is strictly positive where the up-axis matrix has a zero). -/
theorem normMatrix_ne_upAxisMatrix (b : QBox) : normMatrix b ≠ upAxisMatrix := by
  intro h
  have h5 := congrArg (fun l => l.getD 5 0) h
  simp only [normMatrix, upAxisMatrix, List.getD_cons_zero, List.getD_cons_succ] at h5
  exact absurd h5 (ne_of_gt (normScaleY_pos b))

/-! ### Claim theorems -/

/-- Claim C1, counterexample: the point-cloud classifier does not implement the
ordered decision list with mutually exclusive variants. The Korea-TM bbox
(150000, 200000, 0, 160000, 210000, 50) satisfies the Korea-TM condition and is
nevertheless also flagged Projected, because `_detect_coordinate_system`
computes its flags independently with no "not korea" conjunct. -/
theorem C1_counterexample :
    isKoreaTM koreaBoxEF = true ∧ isProjected koreaBoxEF = true := by
  constructor <;>
    norm_num [isKoreaTM, isProjected, boundsValid, xRange, yRange, zRange,
      EF.sub, EF.abs, EF.ltB, EF.leB, EF.isinf, qabs, koreaBoxEF]

/-- Claim C1, amended: in the mesh classifier `_extract_obj_spatial_info` the
variants are mutually exclusive and follow the decision list — a bbox
satisfying the Korea-TM condition is never flagged Projected, and the
geographic flag excludes both Korea-TM and Projected. -/
theorem C1_amended_theorem (b : QBox) :
    (objIsKoreaTM b && objIsProjected b) = false ∧
    (objIsGeographic b && objIsKoreaTM b) = false ∧
    (objIsGeographic b && objIsProjected b) = false := by
  refine ⟨?_, ?_, ?_⟩
  · cases hk : objIsKoreaTM b
    · simp
    · simp [objIsProjected, hk]
  · cases hg : objIsGeographic b
    · simp
    · cases hk : objIsKoreaTM b
      · simp
      · exfalso
        simp only [objIsGeographic, Bool.and_eq_true, decide_eq_true_eq, and_assoc] at hg
        simp only [objIsKoreaTM, Bool.and_eq_true, decide_eq_true_eq, and_assoc] at hk
        obtain ⟨_, hg2, _⟩ := hg
        obtain ⟨hk1, _⟩ := hk
        linarith
  · cases hg : objIsGeographic b
    · simp
    · cases hp : objIsProjected b
      · simp
      · exfalso
        simp only [objIsGeographic, Bool.and_eq_true, decide_eq_true_eq, and_assoc] at hg
        simp only [objIsProjected, Bool.and_eq_true, decide_eq_true_eq, and_assoc] at hp
        obtain ⟨hg1, hg2, _⟩ := hg
        obtain ⟨hp1, _⟩ := hp
        have habs : qabs b.minx ≤ 180 := by
          rw [qabs]; split_ifs <;> linarith
        linarith

/-- Claim C8: in the OBJ to 3D Tiles fallback chain, gltfpack is attempted
exactly when obj2gltf did not produce a GLB, the raw OBJ passthrough tileset is
produced exactly when both engines failed, and no raw passthrough happens once
either engine succeeded. -/
theorem C8_theorem (o1 o2 : EngineOutcome) :
    decide (MeshAction.tryGltfpack ∈ objTo3dtilesActions o1 o2) = !engineOk o1 ∧
    decide (MeshAction.emitRawObjTileset ∈ objTo3dtilesActions o1 o2) =
      (!engineOk o1 && !engineOk o2) ∧
    ((engineOk o1 || engineOk o2) &&
      decide (MeshAction.emitRawObjTileset ∈ objTo3dtilesActions o1 o2)) = false := by
  cases o1 <;> cases o2 <;> decide

/-- Claim C9 (code divergence): the progress trace of an OBJ mesh conversion on
the raw fallback path is 20, 5, 10, 15, 50, 60, 70, 40, 70, 90 — it decreases
at 20 to 5 and again at 70 to 40, so the emitted progress is not monotonically
non-decreasing. -/
theorem C9_theorem :
    convertMeshObjProgress EngineOutcome.failed EngineOutcome.failed =
      [20, 5, 10, 15, 50, 60, 70, 40, 70, 90] ∧
    progressMonotone (convertMeshObjProgress EngineOutcome.failed EngineOutcome.failed)
      = false := by
  decide

/-- Claim C10: every pipeline built by `_convert_e57_to_ply` ends with a
writers.ply stage whose dimension list is exactly X,Y,Z,Red,Green,Blue — all
color branches set output_has_color, so the colorless writer branch is
unreachable. -/
theorem C10_theorem (ci : CoordInfo) (hc i16 : Bool) (vo : Option ℚ) (tc : Option Bool) :
    (planE57 ci hc i16 vo tc).getLast? =
      some (Stage.writer "writers.ply" "X,Y,Z,Red,Green,Blue") := by
  have hw : writerStage hc (normalizationApplied ci) =
      Stage.writer "writers.ply" "X,Y,Z,Red,Green,Blue" := by
    cases hc0 : hc <;> cases hn : normalizationApplied ci <;>
      simp [writerStage, outputHasColor]
  unfold planE57
  rw [hw]
  simp only [← List.append_assoc]
  rw [← List.cons_append, List.getLast?_concat]

theorem filter_sampling_normalization (ci : CoordInfo) :
    (normalizationStages ci).filter isSamplingStage = [] := by
  rcases ci with ⟨g, s, k, p, pc, bb⟩
  cases bb with
  | none => rfl
  | some b =>
      dsimp only [normalizationStages]
      split <;> rfl

theorem filter_sampling_color (a b c : Bool) :
    (colorStages a b c).filter isSamplingStage = [] := by
  cases a <;> cases b <;> cases c <;> rfl

theorem filter_sampling_upaxis (t : Bool) :
    ((if t then [Stage.transformation upAxisMatrix] else []).filter isSamplingStage) = [] := by
  cases t <;> rfl

theorem filter_sampling_self (g k : Bool) (pc : ℕ) (v : ℚ) :
    (samplingStages g k pc v).filter isSamplingStage = samplingStages g k pc v := by
  unfold samplingStages
  split_ifs <;> rfl

theorem filter_sampling_writer (a b : Bool) :
    ([writerStage a b].filter isSamplingStage) = [] := rfl

theorem isSamplingStage_writerStage (a b : Bool) :
    isSamplingStage (writerStage a b) = false := rfl

theorem isSamplingStage_reader (f : String) :
    isSamplingStage (Stage.reader f) = false := rfl

theorem filter_assign_normalization (ci : CoordInfo) :
    (normalizationStages ci).filter isAssignStage = [] := by
  rcases ci with ⟨g, s, k, p, pc, bb⟩
  cases bb with
  | none => rfl
  | some b =>
      dsimp only [normalizationStages]
      split <;> rfl

theorem filter_assign_sampling (g k : Bool) (pc : ℕ) (v : ℚ) :
    (samplingStages g k pc v).filter isAssignStage = [] := by
  unfold samplingStages
  split_ifs <;> rfl

theorem filter_assign_upaxis (t : Bool) :
    ((if t then [Stage.transformation upAxisMatrix] else []).filter isAssignStage) = [] := by
  cases t <;> rfl

theorem filter_assign_color (a b c : Bool) :
    (colorStages a b c).filter isAssignStage = colorStages a b c := by
  cases a <;> cases b <;> cases c <;> rfl

theorem filter_assign_writer (a b : Bool) :
    ([writerStage a b].filter isAssignStage) = [] := rfl

theorem isAssignStage_writerStage (a b : Bool) :
    isAssignStage (writerStage a b) = false := rfl

theorem isAssignStage_reader (f : String) :
    isAssignStage (Stage.reader f) = false := rfl

/-- Claim C3, counterexample: for a geographic classification with 750000
points, the plan's only sampling stage is a decimation with step 1, not the
step 2 that the ceiling formula of the claim requires. -/
theorem C3_counterexample :
    (planE57 (detectCoordinateSystem geoBoxEF 750000) true false none none).filter
        isSamplingStage = [Stage.decimation 1] ∧
    (750000 + 500000 - 1) / 500000 = 2 := by
  constructor
  · norm_num [planE57, detectCoordinateSystem, samplingStages, e57VoxelSize,
      normalizationStages, normalizationApplied, hasValidBounds, colorStages, writerStage,
      outputHasColor, isSamplingStage, isGeographic, isSwappedGeo, isStandardGeo,
      isKoreaTM, isProjected, boundsValid, xRange, yRange, zRange, EF.sub, EF.abs,
      EF.ltB, EF.leB, EF.isinf, EF.isnan, qabs, geoBoxEF, List.filter]
  · norm_num

/-- Claim C3, amended: the sampling stage of the e57 plan is exactly:
Geographic with more than 500000 points gets one decimation stage with step
max(1, floor(pointCount / 500000)); Geographic with fewer points gets none;
Korea-TM or Projected gets a voxel downsample with default cell 0.05
(overridable); Unknown with more than 500000 points gets the decimation
fallback with the same floor formula; Unknown with fewer points gets a voxel
downsample with default cell 0.05. (The claim's ceiling formula is replaced by
the floor computed by the code.) -/
theorem C3_amended_theorem (ci : CoordInfo) (hc i16 : Bool) (vo : Option ℚ)
    (tc : Option Bool) :
    (planE57 ci hc i16 vo tc).filter isSamplingStage =
      (if ci.is_geographic then
        (if 500000 < ci.point_count then
          [Stage.decimation (max 1 (ci.point_count / 500000))] else [])
      else if ci.is_korea_tm || ci.is_projected then
        [Stage.voxelDownsize (vo.getD (1/20))]
      else if 500000 < ci.point_count then
        [Stage.decimation (max 1 (ci.point_count / 500000))]
      else [Stage.voxelDownsize (vo.getD (1/20))]) := by
  unfold planE57
  simp only [List.filter_cons, List.filter_append, filter_sampling_normalization,
    filter_sampling_color, filter_sampling_upaxis, filter_sampling_self,
    filter_sampling_writer, isSamplingStage_reader, isSamplingStage_writerStage,
    Bool.false_eq_true, if_false, List.nil_append, List.append_nil]
  rcases ci with ⟨geo, sw, ko, pr, pc, bb⟩
  dsimp only
  unfold samplingStages e57VoxelSize
  cases geo <;> cases ko <;> cases pr <;> by_cases h : 500000 < pc <;>
    simp [h, isSamplingStage_writerStage]

/-- Claim C6: exactly one of the four color branches fires: color present and
16-bit gives one assign stage scaling Red, Green, Blue by 256; color present
and 8-bit gives no color-modifying stage; no color with normalization applied
gives the height-ramp assign stage; no color without normalization gives the
flat-color assign stage. -/
theorem C6_theorem (ci : CoordInfo) (hc i16 : Bool) (vo : Option ℚ)
    (tc : Option Bool) :
    (planE57 ci hc i16 vo tc).filter isAssignStage =
      (if hc && i16 then [Stage.assign colorScale16Values]
      else if hc then []
      else if normalizationApplied ci then [Stage.assign heightRampValues]
      else [Stage.assign flatColorValues]) := by
  unfold planE57
  simp only [List.filter_cons, List.filter_append, filter_assign_normalization,
    filter_assign_color, filter_assign_upaxis, filter_assign_sampling,
    filter_assign_writer, isAssignStage_reader, isAssignStage_writerStage,
    Bool.false_eq_true, if_false, List.nil_append, List.append_nil]
  cases hc <;> cases i16 <;> cases hn : normalizationApplied ci <;>
    simp [colorStages, hn, isAssignStage_writerStage]

theorem transformation_not_mem_sampling (g k : Bool) (pc : ℕ) (v : ℚ) (m : List ℚ) :
    Stage.transformation m ∉ samplingStages g k pc v := by
  unfold samplingStages
  split_ifs <;> simp

theorem transformation_not_mem_colorStages (a b c : Bool) (m : List ℚ) :
    Stage.transformation m ∉ colorStages a b c := by
  cases a <;> cases b <;> cases c <;> simp [colorStages]

/-- Claim C2, counterexample: a standard-geographic bbox with a degenerate Z
range (minz = maxz = 5, so the Z range is 0, below the 1e-4 epsilon) still has
valid bounds, is classified StandardGeographic rather than Unknown, and its
plan does contain the normalization affine stage — the code checks only the X
and Y ranges against the epsilon. -/
theorem C2_counterexample :
    EF.leB (zRange flatZBoxEF) (EF.fin (1/10000)) = true ∧
    boundsValid flatZBoxEF = true ∧
    isStandardGeo flatZBoxEF = true ∧
    Stage.transformation (normMatrix (toQBox flatZBoxEF)) ∈
      planE57 (detectCoordinateSystem flatZBoxEF 100) false false none none := by
  refine ⟨?_, ?_, ?_, ?_⟩ <;>
    norm_num [planE57, detectCoordinateSystem, samplingStages, e57VoxelSize,
      normalizationStages, normalizationApplied, hasValidBounds, colorStages, writerStage,
      outputHasColor, isGeographic, isSwappedGeo, isStandardGeo,
      isKoreaTM, isProjected, boundsValid, xRange, yRange, zRange, EF.sub, EF.abs,
      EF.ltB, EF.leB, EF.isinf, EF.isnan, qabs, flatZBoxEF]

/-- Claim C2, amended: whenever some bound is infinite, or the X range or the Y
range is not above the 1e-4 epsilon (which covers NaN X/Y bounds), the detector
reports invalid bounds, all four classification flags are false (Unknown), and
the planned pipeline contains no normalization affine — the only affine it may
contain is the fixed up-axis matrix. (A Z range below the epsilon, or a NaN Z
bound alone, does not trigger this.) -/
theorem C2_amended_theorem (b : EFBox) (pc : ℕ) (hc i16 : Bool) (vo : Option ℚ)
    (tc : Option Bool)
    (h : (anyInfBound b || !EF.ltB (EF.fin (1/10000)) (xRange b)
        || !EF.ltB (EF.fin (1/10000)) (yRange b)) = true) :
    boundsValid b = false ∧
    isSwappedGeo b = false ∧ isStandardGeo b = false ∧
    isKoreaTM b = false ∧ isProjected b = false ∧
    ∀ m, Stage.transformation m ∈ planE57 (detectCoordinateSystem b pc) hc i16 vo tc →
      m = upAxisMatrix := by
  have hbv : boundsValid b = false := by
    cases hv : boundsValid b
    · rfl
    · exfalso
      simp only [boundsValid, Bool.and_eq_true, Bool.not_eq_true', and_assoc] at hv
      simp only [anyInfBound, Bool.or_eq_true, Bool.not_eq_true'] at h
      obtain ⟨hx, hy, hzi, h1, h2, h3, h4, h5, h6⟩ := hv
      simp_all [anyInfBound]
  have hsw : isSwappedGeo b = false := by simp [isSwappedGeo, hbv]
  have hst : isStandardGeo b = false := by simp [isStandardGeo, hbv]
  have hko : isKoreaTM b = false := by simp [isKoreaTM, hbv]
  have hpr : isProjected b = false := by simp [isProjected, hbv]
  have hgeo : isGeographic b = false := by simp [isGeographic, hsw, hst]
  refine ⟨hbv, hsw, hst, hko, hpr, ?_⟩
  intro m hm
  have hplan : planE57 (detectCoordinateSystem b pc) hc i16 vo tc =
      Stage.reader "readers.e57" ::
        (samplingStages false false pc (e57VoxelSize false false vo) ++
          ((if tc.getD false then [Stage.transformation upAxisMatrix] else []) ++
            (colorStages hc i16 false ++ [writerStage hc false]))) := by
    simp [planE57, detectCoordinateSystem, normalizationStages, normalizationApplied,
      hgeo, hko, hpr]
  rw [hplan] at hm
  simp only [List.mem_cons, List.mem_append] at hm
  rcases hm with h1 | h1 | h1 | h1 | h1
  · exact absurd h1 (by simp)
  · exact absurd h1 (transformation_not_mem_sampling false false pc _ m)
  · cases htc : tc.getD false
    · rw [htc] at h1
      simp at h1
    · rw [htc] at h1
      simpa using h1
  · exact absurd h1 (transformation_not_mem_colorStages hc i16 false m)
  · exact absurd h1 (by simp [writerStage])

/-- Claim C2, witness: the amended theorem applies to the bbox with a
degenerate X range (minx = maxx = 0). -/
theorem C2_amended_witness :
    boundsValid degenerateXBoxEF = false ∧ isStandardGeo degenerateXBoxEF = false := by
  have h := C2_amended_theorem degenerateXBoxEF 100 false false none none (by
    norm_num [anyInfBound, xRange, yRange, EF.sub, EF.abs, EF.ltB, EF.isinf,
      qabs, degenerateXBoxEF])
  exact ⟨h.1, h.2.2.1⟩

theorem transformation_mem_normalizationStages {ci : CoordInfo} {m : List ℚ}
    (h : Stage.transformation m ∈ normalizationStages ci) :
    ∃ b, ci.bbox = some b ∧ m = normMatrix (toQBox b) := by
  rcases ci with ⟨g, sw, k, p, pc, bb⟩
  cases bb with
  | none => simp [normalizationStages] at h
  | some b =>
      dsimp only [normalizationStages] at h
      split at h
      · simp only [List.mem_singleton, Stage.transformation.injEq] at h
        exact ⟨b, rfl, h⟩
      · simp at h

/-- Claim C5, counterexample: the bbox (100000, 100000, 30, 100000.5, 100000.5,
40) carries the swapped-geographic flag (hence a Geographic classification) and
the Korea-TM flag at the same time, and the built plan does contain the
up-axis correction stage — so the up-axis stage is not "never appended" for a
Geographic (swapped) classification. -/
theorem C5_counterexample :
    isSwappedGeo overlapBoxEF = true ∧ isGeographic overlapBoxEF = true ∧
    Stage.transformation upAxisMatrix ∈
      planE57 (detectCoordinateSystem overlapBoxEF 100) false false none none := by
  refine ⟨?_, ?_, ?_⟩ <;>
    norm_num [planE57, detectCoordinateSystem, samplingStages, e57VoxelSize,
      normalizationStages, normalizationApplied, hasValidBounds, colorStages, writerStage,
      outputHasColor, isGeographic, isSwappedGeo, isStandardGeo,
      isKoreaTM, isProjected, boundsValid, xRange, yRange, zRange, EF.sub, EF.abs,
      EF.ltB, EF.leB, EF.isinf, EF.isnan, qabs, overlapBoxEF]

/-- Claim C5, amended: without a transform_coords override, the up-axis stage
is appended exactly when the Korea-TM or Projected flag is set (these flags can
coincide with the geographic ones); when appended it immediately follows the
normalization affine stage, and when neither flag is set the up-axis stage
never appears — in particular not for purely geographic bboxes. -/
theorem C5_amended_theorem (b : EFBox) (pc : ℕ) (hc i16 : Bool) (vo : Option ℚ) :
    ((isKoreaTM b || isProjected b) = true →
      ∃ pre post,
        planE57 (detectCoordinateSystem b pc) hc i16 vo none =
          pre ++ Stage.transformation (normMatrix (toQBox b)) ::
                 Stage.transformation upAxisMatrix :: post) ∧
    ((isKoreaTM b || isProjected b) = false →
      Stage.transformation upAxisMatrix ∉
        planE57 (detectCoordinateSystem b pc) hc i16 vo none) := by
  constructor
  · intro h
    have hval : hasValidBounds (some b) = true := valid_of_koreaOrProj b h
    have hkp : isKoreaTM b = true ∨ isProjected b = true := by
      rw [Bool.or_eq_true] at h
      exact h
    have hcond : (isGeographic b || isKoreaTM b || isProjected b) = true := by
      rcases hkp with hk | hp
      · simp [hk]
      · simp [hp]
    refine ⟨Stage.reader "readers.e57" ::
        samplingStages (isGeographic b) (isKoreaTM b || isProjected b) pc
          (e57VoxelSize (isGeographic b) (isKoreaTM b || isProjected b) vo),
      colorStages hc i16 (normalizationApplied (detectCoordinateSystem b pc)) ++
        [writerStage hc (normalizationApplied (detectCoordinateSystem b pc))], ?_⟩
    simp [planE57, detectCoordinateSystem, normalizationStages, h, hval, hcond]
  · intro h hm
    have hk : isKoreaTM b = false := by
      cases hk0 : isKoreaTM b
      · rfl
      · rw [hk0, Bool.true_or] at h
        exact absurd h (by simp)
    have hp : isProjected b = false := by
      cases hp0 : isProjected b
      · rfl
      · rw [hp0, Bool.or_true] at h
        exact absurd h (by simp)
    have hplan : planE57 (detectCoordinateSystem b pc) hc i16 vo none =
        Stage.reader "readers.e57" ::
          (samplingStages (isGeographic b) false pc
              (e57VoxelSize (isGeographic b) false vo) ++
            (normalizationStages (detectCoordinateSystem b pc) ++
              (colorStages hc i16 (normalizationApplied (detectCoordinateSystem b pc)) ++
                [writerStage hc (normalizationApplied (detectCoordinateSystem b pc))]))) := by
      simp [planE57, detectCoordinateSystem, hk, hp]
    rw [hplan] at hm
    simp only [List.mem_cons, List.mem_append] at hm
    rcases hm with h1 | h1 | h1 | h1 | h1
    · exact absurd h1 (by simp)
    · exact transformation_not_mem_sampling _ _ _ _ _ h1
    · obtain ⟨b2, hb2, hm2⟩ := transformation_mem_normalizationStages h1
      simp only [detectCoordinateSystem, Option.some.injEq] at hb2
      rw [← hb2] at hm2
      exact absurd hm2.symm (normMatrix_ne_upAxisMatrix (toQBox b))
    · exact transformation_not_mem_colorStages _ _ _ _ h1
    · exact absurd h1 (by simp [writerStage])

theorem scale_bound (mn mx v : ℚ) (hv : v = mn ∨ v = mx) :
    -50 ≤ 100 / max (qabs (mx - mn)) (1 / 10000000000) * v +
          -((mn + mx) / 2) * (100 / max (qabs (mx - mn)) (1 / 10000000000)) ∧
    100 / max (qabs (mx - mn)) (1 / 10000000000) * v +
          -((mn + mx) / 2) * (100 / max (qabs (mx - mn)) (1 / 10000000000)) ≤ 50 := by
  set M : ℚ := max (qabs (mx - mn)) (1 / 10000000000) with hM
  have hm : (0:ℚ) < M := lt_of_lt_of_le (by norm_num) (le_max_right _ _)
  have hle : qabs (mx - mn) ≤ M := le_max_left _ _
  have key : |(v - (mn + mx) / 2) * (100 / M)| ≤ 50 := by
    rw [abs_mul, abs_of_pos (div_pos (by norm_num) hm)]
    have habs : |v - (mn + mx) / 2| = qabs (mx - mn) / 2 := by
      rw [qabs_eq_abs]
      rcases hv with h | h
      · rw [h, show mn - (mn + mx) / 2 = -((mx - mn) / 2) by ring, abs_neg, abs_div]
        norm_num
      · rw [h, show mx - (mn + mx) / 2 = (mx - mn) / 2 by ring, abs_div]
        norm_num
    rw [habs]
    have h100 : (0:ℚ) ≤ 100 / M := le_of_lt (div_pos (by norm_num) hm)
    have hhalf : qabs (mx - mn) / 2 ≤ M / 2 := by linarith
    calc qabs (mx - mn) / 2 * (100 / M)
        ≤ M / 2 * (100 / M) := mul_le_mul_of_nonneg_right hhalf h100
      _ = 50 := by
          field_simp
          ring
  have h2 := abs_le.mp key
  have e : (v - (mn + mx) / 2) * (100 / M) =
      100 / M * v + -((mn + mx) / 2) * (100 / M) := by ring
  rw [e] at h2
  exact h2

/-- Claim C4: for every bounding box, applying the derived normalization affine
(the 4x4 matrix with per-axis scale 100 / max(range, 1e-10) and translation
about the bbox center) to any of the eight bbox corners yields coordinates in
[-50, 50] on every axis, exactly. -/
theorem C4_theorem (b : QBox) (px py pz : Bool) :
    inViewCube (apply4RowMajor (normMatrix b)
      (cornerX b px) (cornerY b py) (cornerZ b pz)) := by
  have hx := scale_bound b.minx b.maxx (cornerX b px)
    (by cases px <;> simp [cornerX])
  have hy := scale_bound b.miny b.maxy (cornerY b py)
    (by cases py <;> simp [cornerY])
  have hz := scale_bound b.minz b.maxz (cornerZ b pz)
    (by cases pz <;> simp [cornerZ])
  simp only [normMatrix]
  dsimp only [apply4RowMajor, inViewCube]
  simp only [normScaleX, normScaleY, normScaleZ, normXRange, normYRange, normZRange,
    normCx, normCy, normCz, zero_mul, add_zero, zero_add]
  exact ⟨hx.1, hx.2, hy.1, hy.2, hz.1, hz.2⟩

/-- Claim C7: the placement matrix of `_create_glb_tileset` has the ECEF
translation of the WGS84 formula (so at lon = lat = alt = 0 it equals
(6378137, 0, 0)) and its rotation columns are, in column-major order, east =
(-sinLon, cosLon, 0), up = (cosLat cosLon, cosLat sinLon, sinLat) and -north =
(sinLat cosLon, sinLat sinLon, -cosLat), followed by the ECEF translation. -/
theorem C7_theorem :
    ecefTranslation 0 0 0 = ((6378137 : ℝ), 0, 0) ∧
    ∀ lon lat alt : ℝ,
      rootTransform lon lat alt =
        [-(Real.sin (lon * (Real.pi / 180))), Real.cos (lon * (Real.pi / 180)), 0, 0,
         Real.cos (lat * (Real.pi / 180)) * Real.cos (lon * (Real.pi / 180)),
         Real.cos (lat * (Real.pi / 180)) * Real.sin (lon * (Real.pi / 180)),
         Real.sin (lat * (Real.pi / 180)), 0,
         Real.sin (lat * (Real.pi / 180)) * Real.cos (lon * (Real.pi / 180)),
         Real.sin (lat * (Real.pi / 180)) * Real.sin (lon * (Real.pi / 180)),
         -(Real.cos (lat * (Real.pi / 180))), 0,
         (primeVerticalRadius (lat * (Real.pi / 180)) + alt) *
           Real.cos (lat * (Real.pi / 180)) * Real.cos (lon * (Real.pi / 180)),
         (primeVerticalRadius (lat * (Real.pi / 180)) + alt) *
           Real.cos (lat * (Real.pi / 180)) * Real.sin (lon * (Real.pi / 180)),
         (primeVerticalRadius (lat * (Real.pi / 180)) * (1 - wgs84E2) + alt) *
           Real.sin (lat * (Real.pi / 180)), 1] := by
  constructor
  · simp [ecefTranslation, primeVerticalRadius, wgs84A, Real.sin_zero, Real.cos_zero,
      Real.sqrt_one]
  · intro lon lat alt
    simp [rootTransform, ecefTranslation, neg_mul, neg_neg]

/-- Claim C5, witness: the amended theorem is applied to the Korea-TM bbox
(normalization then up-axis appear in order) and to a standard-geographic bbox
(no up-axis stage). -/
theorem C5_amended_witness :
    (∃ pre post,
      planE57 (detectCoordinateSystem koreaBoxEF 100) false false none none =
        pre ++ Stage.transformation (normMatrix (toQBox koreaBoxEF)) ::
               Stage.transformation upAxisMatrix :: post) ∧
    Stage.transformation upAxisMatrix ∉
      planE57 (detectCoordinateSystem geoBoxEF 100) false false none none := by
  constructor
  · exact (C5_amended_theorem koreaBoxEF 100 false false none).1 (by
      norm_num [isKoreaTM, isProjected, boundsValid, xRange, yRange, zRange, EF.sub,
        EF.abs, EF.ltB, EF.leB, EF.isinf, qabs, koreaBoxEF])
  · exact (C5_amended_theorem geoBoxEF 100 false false none).2 (by
      norm_num [isKoreaTM, isProjected, boundsValid, xRange, yRange, zRange, EF.sub,
        EF.abs, EF.ltB, EF.leB, EF.isinf, qabs, geoBoxEF])

end SpatialLog
